import Mathlib

/-!
# Verification of the medprep scoring core

Shallow embedding of `src/lib/scoring.ts` and of the leaderboard sort
comparator of `src/pages/Leaderboard.tsx`, together with theorems about
the scoring algorithm.

JavaScript numbers are modelled as real numbers (`ℝ`); timestamps are the
millisecond values produced by `Date.now()` / `new Date(s).getTime()`,
passed explicitly as a `now : ℝ` parameter instead of reading the ambient
wall clock.  `Number(x.toFixed(2))` is modelled as rounding to the nearest
multiple of `1/100`.
-/

namespace MedPrep

/-- One logged session record, after JSON parsing.  `correct_questions` and
`total_questions` are the non-negative integers of the data model;
`guess_percent` is a number in `[0,100]`; `difficulty` and `confidence`
are the raw strings; `created_at` is the parsed timestamp in milliseconds. -/
structure Session where
  correct_questions : ℕ
  total_questions : ℕ
  difficulty : String
  confidence : String
  guess_percent : ℚ
  created_at : ℝ

/-- The per-subject bucket `{ practice: [...], mock: [...] }`. -/
structure SubjectData where
  practice : List Session
  mock : List Session

/-- The static 17-subject weight table `subjectWeights` of `scoring.ts`,
in source order. -/
def subjectWeights : List (String × ℚ) :=
  [("Medicine", 15), ("Surgery", 12), ("OB-GYN", 10), ("Pediatrics", 6),
   ("Pathology", 6), ("Pharmacology", 6), ("Biochemistry", 5), ("Anatomy", 4),
   ("Physiology", 4), ("Microbiology", 5), ("Radiology", 5), ("Dermatology", 3),
   ("Psychiatry", 3), ("ENT", 2), ("Ophthalmology", 2), ("Anesthesia", 2),
   ("Forensic Medicine", 2)]

/-- The two lookup axes of `getMultiplier` (the TS union type
`'difficulty' | 'confidence'`). -/
inductive MultKind where
  | difficulty
  | confidence
deriving DecidableEq

/-- `getMultiplier` of `scoring.ts`: table lookup with the `|| 1.0`
fallback for a string that is not a key of the selected row (every table
entry is non-zero, hence truthy, so the fallback fires exactly on a
lookup miss). -/
def getMultiplier : MultKind → String → ℝ
  | .difficulty, v =>
      if v = "easy" then 1.0 else if v = "medium" then 1.2
      else if v = "hard" then 1.4 else 1.0
  | .confidence, v =>
      if v = "low" then 0.8 else if v = "medium" then 1.0
      else if v = "high" then 1.2 else 1.0

/-- `getRecentnessFactor` of `scoring.ts`:
`daysOld = (Date.now() - t) / (1000*3600*24)`, result `exp(-daysOld/30)`. -/
noncomputable def getRecentnessFactor (now dateMs : ℝ) : ℝ :=
  Real.exp (-((now - dateMs) / (1000 * 3600 * 24)) / 30)

/-- The per-session score computed in the loop body of
`averageSessionScore`: `accuracy * difficultyMult * confidenceMult *
guessFactor * recentness`. -/
noncomputable def sessionScore (now : ℝ) (s : Session) : ℝ :=
  let accuracy : ℝ := (s.correct_questions : ℝ) / (s.total_questions : ℝ)
  let difficultyMult := getMultiplier .difficulty s.difficulty
  let confidenceMult := getMultiplier .confidence s.confidence
  let guessFactor : ℝ := 1 - ((s.guess_percent : ℝ) / 100) * 0.3
  let recentness := getRecentnessFactor now s.created_at
  accuracy * difficultyMult * confidenceMult * guessFactor * recentness

/-- `averageSessionScore` of `scoring.ts`: `0` on the empty list, else the
arithmetic mean of the per-session scores. -/
noncomputable def averageSessionScore (now : ℝ) (sessions : List Session) : ℝ :=
  if sessions.length = 0 then 0
  else (sessions.map (sessionScore now)).sum / (sessions.length : ℝ)

/-- `Number(x.toFixed(2))`: round to two decimal places. -/
noncomputable def round2 (x : ℝ) : ℝ := ((round (x * 100) : ℤ) : ℝ) / 100

/-- The loop body of `calculatePrepScoreWithMocks` for one subject/weight
pair: `subjectScore * weight`, where a key missing from `dataBySubject`
defaults to the empty bucket (`|| { practice: [], mock: [] }`). -/
noncomputable def subjectTerm (now : ℝ)
    (dataBySubject : String → Option SubjectData) (sw : String × ℚ) : ℝ :=
  let data := (dataBySubject sw.1).getD ⟨[], []⟩
  let practiceScore := averageSessionScore now data.practice
  let mockScore := averageSessionScore now data.mock
  (practiceScore * 0.4 + mockScore * 0.6) * (sw.2 : ℝ)

/-- `calculatePrepScoreWithMocks` of `scoring.ts`.  The record
`dataBySubject` is modelled as a partial map from subject strings to
buckets; the loop runs over the static `subjectWeights` table,
accumulating `totalScore` and `totalWeight`, and the result is
`Number((totalScore / totalWeight * 100).toFixed(2))`. -/
noncomputable def calculatePrepScoreWithMocks (now : ℝ)
    (dataBySubject : String → Option SubjectData) : ℝ :=
  let totalScore : ℝ := (subjectWeights.map (subjectTerm now dataBySubject)).sum
  let totalWeight : ℚ := (subjectWeights.map Prod.snd).sum
  round2 (totalScore / (totalWeight : ℝ) * 100)

/-- The subject-level blended score `practiceScore * 0.4 + mockScore * 0.6`
computed for each subject inside `calculatePrepScoreWithMocks`
(`subjectBlendedScore` of spec §6). -/
noncomputable def subjectBlendedScore (now : ℝ) (practice mock : List Session) : ℝ :=
  averageSessionScore now practice * 0.4 + averageSessionScore now mock * 0.6

/-! ## Spec-side restatement of the overall aggregation (for the refinement
claim): written from the spec's words, to be compared with
`calculatePrepScoreWithMocks` above. -/

/-- Spec wording: arithmetic mean of the sessions' scores, an empty list
counting as mean `0`. -/
noncomputable def specMean (now : ℝ) (sessions : List Session) : ℝ :=
  if sessions.length = 0 then 0
  else (sessions.map (sessionScore now)).sum / (sessions.length : ℝ)

/-- Spec wording: per-subject blended score `0.4 * practice_mean +
0.6 * mock_mean`, a subject absent from the input map contributing `0`. -/
noncomputable def specBlended (now : ℝ) (bucket : Option SubjectData) : ℝ :=
  match bucket with
  | none => 0
  | some d => 0.4 * specMean now d.practice + 0.6 * specMean now d.mock

/-- Spec wording of the overall score: `round2` of the weight-blended sum
over the fixed 17 subjects, divided by the sum of all 17 weights, times
100. -/
noncomputable def specPrepScore (now : ℝ)
    (dataBySubject : String → Option SubjectData) : ℝ :=
  round2 ((subjectWeights.map
      (fun sw => (sw.2 : ℝ) * specBlended now (dataBySubject sw.1))).sum /
    (((subjectWeights.map Prod.snd).sum : ℚ) : ℝ) * 100)

/-! ## Leaderboard sort (from `src/pages/Leaderboard.tsx`) -/

/-- One leaderboard row (`ProfileWithScore` of `Leaderboard.tsx`), after
the `prediction_score !== null ? ... : 0` normalisation. -/
structure ProfileWithScore where
  id : String
  nickname : String
  email : String
  score : ℚ
deriving DecidableEq

/-- The comparator passed to `userScores.sort` in `fetchLeaderboard`:
```
if (a.score === 0 && b.score === 0) return 0;
if (a.score === 0) return 1;
if (b.score === 0) return -1;
return b.score - a.score;
``` -/
def leaderboardCmp (a b : ProfileWithScore) : ℚ :=
  if a.score = 0 ∧ b.score = 0 then 0
  else if a.score = 0 then 1
  else if b.score = 0 then -1
  else b.score - a.score

/-- The boolean preorder induced by the comparator: `a` may precede `b`
when the comparator does not order `b` strictly before `a`. -/
def lbLE (a b : ProfileWithScore) : Bool := leaderboardCmp a b ≤ 0

/-- `Array.prototype.sort` is specified as a stable sort driven by the
comparator; it is modelled as a stable merge sort with the total preorder
`leaderboardCmp a b ≤ 0`. -/
def sortLeaderboard (l : List ProfileWithScore) : List ProfileWithScore :=
  l.mergeSort lbLE

/-! ## Helper lemmas -/

lemma getMultiplier_pos (k : MultKind) (v : String) : 0 < getMultiplier k v := by
  cases k <;> simp only [getMultiplier] <;> split_ifs <;> norm_num

lemma specMean_eq_averageSessionScore (now : ℝ) (l : List Session) :
    specMean now l = averageSessionScore now l := rfl

lemma subjectTerm_eq_specBlended (now : ℝ)
    (data : String → Option SubjectData) (sw : String × ℚ) :
    subjectTerm now data sw = (sw.2 : ℝ) * specBlended now (data sw.1) := by
  unfold subjectTerm
  cases h : data sw.1 with
  | none => simp [specBlended, averageSessionScore]
  | some d =>
      simp only [specBlended, Option.getD_some]
      rw [specMean_eq_averageSessionScore, specMean_eq_averageSessionScore]
      ring

lemma prepScore_congr (now : ℝ) (d d' : String → Option SubjectData)
    (h : ∀ sw ∈ subjectWeights,
      (d sw.1).getD ⟨[], []⟩ = (d' sw.1).getD ⟨[], []⟩) :
    calculatePrepScoreWithMocks now d = calculatePrepScoreWithMocks now d' := by
  unfold calculatePrepScoreWithMocks
  rw [List.map_congr_left (fun sw hsw => by
    unfold subjectTerm; rw [h sw hsw] :
    ∀ sw ∈ subjectWeights, subjectTerm now d sw = subjectTerm now d' sw)]

lemma sessionScore_def (now : ℝ) (s : Session) :
    sessionScore now s =
      (s.correct_questions : ℝ) / (s.total_questions : ℝ) *
        getMultiplier .difficulty s.difficulty *
        getMultiplier .confidence s.confidence *
        (1 - (s.guess_percent : ℝ) / 100 * 0.3) *
        getRecentnessFactor now s.created_at := rfl

/-- A session created exactly at the evaluation instant has recentness
factor `exp 0 = 1`. -/
lemma sessionScore_at_now (now : ℝ) (c t : ℕ) (d cf : String) (g : ℚ) :
    sessionScore now ⟨c, t, d, cf, g, now⟩ =
      (c : ℝ) / (t : ℝ) * getMultiplier .difficulty d *
        getMultiplier .confidence cf * (1 - (g : ℝ) / 100 * 0.3) := by
  rw [sessionScore_def]
  simp [getRecentnessFactor]

/-- The single Medicine mock session of the spec's worked example:
`correct=8/total=10`, medium difficulty, high confidence, zero guessing,
created at the evaluation instant. -/
def medSession (now : ℝ) : Session := ⟨8, 10, "medium", "high", 0, now⟩

/-- Input map with only the worked example's Medicine mock session. -/
noncomputable def medData (now : ℝ) : String → Option SubjectData :=
  fun s => if s = "Medicine" then some ⟨[], [medSession now]⟩ else none

lemma weightSum_eval : ((subjectWeights.map Prod.snd).sum : ℚ) = 92 := by
  norm_num [subjectWeights]

lemma medSession_score (now : ℝ) : sessionScore now (medSession now) = 1.152 := by
  rw [medSession, sessionScore_at_now]
  simp [getMultiplier]
  norm_num

lemma medCalc_eval (now : ℝ) :
    calculatePrepScoreWithMocks now (medData now) = 11.27 := by
  unfold calculatePrepScoreWithMocks
  simp [subjectWeights, medData, subjectTerm, averageSessionScore, medSession,
    sessionScore_at_now, getMultiplier, round2]
  norm_num
  rw [show round ((25920 : ℝ) / 23) = 1127 from by
    rw [round_eq]; exact Int.floor_eq_iff.mpr (by norm_num)]
  norm_num

/-- A session scoring `0` at evaluation time `0`: no question answered
correctly, easy difficulty, medium confidence, no guessing. -/
def zeroSession : Session := ⟨0, 10, "easy", "medium", 0, 0⟩

/-- A session scoring `1` at evaluation time `0`: all ten questions
correct, easy difficulty, medium confidence, no guessing. -/
def fullSession : Session := ⟨10, 10, "easy", "medium", 0, 0⟩

lemma averageSessionScore_remove_le (now : ℝ) (l1 l2 : List Session) (s : Session)
    (hsnn : 0 ≤ sessionScore now s)
    (hs : averageSessionScore now (l1 ++ s :: l2) ≤ sessionScore now s) :
    averageSessionScore now (l1 ++ l2) ≤ averageSessionScore now (l1 ++ s :: l2) := by
  rcases Nat.eq_zero_or_pos (l1.length + l2.length) with h0 | hpos
  · obtain ⟨h1, h2⟩ := Nat.add_eq_zero.mp h0
    obtain rfl := List.length_eq_zero.mp h1
    obtain rfl := List.length_eq_zero.mp h2
    simpa [averageSessionScore] using hsnn
  · have hne : (l1 ++ l2).length ≠ 0 := by simp only [List.length_append]; omega
    have hne' : (l1 ++ s :: l2).length ≠ 0 := by simp
    unfold averageSessionScore at hs ⊢
    rw [if_neg hne'] at hs
    rw [if_neg hne, if_neg hne']
    simp only [List.map_append, List.map_cons, List.sum_append, List.sum_cons,
      List.length_append, List.length_cons] at hs ⊢
    set S1 := (l1.map (sessionScore now)).sum
    set S2 := (l2.map (sessionScore now)).sum
    set x := sessionScore now s
    have hn : (0 : ℝ) < (l1.length : ℝ) + (l2.length : ℝ) := by
      have : 0 < l1.length + l2.length := hpos
      exact_mod_cast this
    have hcast : ((l1.length + (l2.length + 1) : ℕ) : ℝ) =
        (l1.length : ℝ) + (l2.length : ℝ) + 1 := by push_cast; ring
    have hcast2 : ((l1.length + l2.length : ℕ) : ℝ) =
        (l1.length : ℝ) + (l2.length : ℝ) := by push_cast; ring
    rw [hcast] at hs
    rw [hcast, hcast2]
    have hs' : S1 + (x + S2) ≤ x * ((l1.length : ℝ) + (l2.length : ℝ) + 1) :=
      (div_le_iff (by linarith)).mp hs
    rw [div_le_div_iff hn (by linarith)]
    nlinarith [hs']

lemma lbLE_eq_true_iff (a b : ProfileWithScore) :
    lbLE a b = true ↔ (b.score = 0 ∨ (a.score ≠ 0 ∧ b.score ≤ a.score)) := by
  unfold lbLE leaderboardCmp
  rw [decide_eq_true_eq]
  split_ifs with h1 h2 h3
  · simp [h1.1, h1.2]
  · have hb : b.score ≠ 0 := fun hb => h1 ⟨h2, hb⟩
    simp [h2, hb]
  · simp [h3]
  · simp [sub_nonpos, h2, h3]

lemma lbLE_trans (a b c : ProfileWithScore) :
    lbLE a b → lbLE b c → lbLE a c := by
  intro hab hbc
  rw [lbLE_eq_true_iff] at *
  rcases hbc with hc0 | ⟨hb0, hcb⟩
  · exact Or.inl hc0
  · rcases hab with hb0' | ⟨ha0, hba⟩
    · exact absurd hb0' hb0
    · exact Or.inr ⟨ha0, le_trans hcb hba⟩

lemma lbLE_total (a b : ProfileWithScore) : lbLE a b || lbLE b a := by
  rw [Bool.or_eq_true, lbLE_eq_true_iff, lbLE_eq_true_iff]
  by_cases hb : b.score = 0
  · exact Or.inl (Or.inl hb)
  · by_cases ha : a.score = 0
    · exact Or.inr (Or.inl ha)
    · rcases le_total b.score a.score with h | h
      · exact Or.inl (Or.inr ⟨ha, h⟩)
      · exact Or.inr (Or.inr ⟨hb, h⟩)

/-- A concrete four-user list mixing zero and positive scores. -/
def lbUsers : List ProfileWithScore :=
  [⟨"a", "a", "a", 0⟩, ⟨"b", "b", "b", 2⟩, ⟨"c", "c", "c", 0⟩, ⟨"d", "d", "d", 1⟩]

/-! ## Claim theorems -/

/-- C6: holding every other field and the evaluation time fixed, the
per-session score of `averageSessionScore` is non-increasing in
`guess_percent` on `[0, 100]` for a valid session. -/
theorem sessionScore_antitone_guess (now : ℝ) (s : Session) (g1 g2 : ℚ)
    (hct : s.correct_questions ≤ s.total_questions) (ht : 1 ≤ s.total_questions)
    (h0 : 0 ≤ g1) (h12 : g1 ≤ g2) (h100 : g2 ≤ 100) :
    sessionScore now { s with guess_percent := g2 } ≤
      sessionScore now { s with guess_percent := g1 } := by
  rw [sessionScore_def, sessionScore_def]
  simp only
  have hrec : (0 : ℝ) < getRecentnessFactor now s.created_at := Real.exp_pos _
  have hd := getMultiplier_pos .difficulty s.difficulty
  have hc := getMultiplier_pos .confidence s.confidence
  have hA : (0 : ℝ) ≤ (s.correct_questions : ℝ) / (s.total_questions : ℝ) *
      getMultiplier .difficulty s.difficulty *
      getMultiplier .confidence s.confidence := by positivity
  have hg : ((g1 : ℚ) : ℝ) ≤ ((g2 : ℚ) : ℝ) := by exact_mod_cast h12
  have hf : 1 - ((g2 : ℚ) : ℝ) / 100 * 0.3 ≤ 1 - ((g1 : ℚ) : ℝ) / 100 * 0.3 := by
    linarith
  exact mul_le_mul_of_nonneg_right (mul_le_mul_of_nonneg_left hf hA) hrec.le

/-- Witness for C6 at a concrete session and guess percentages. -/
theorem sessionScore_antitone_guess_witness :
    sessionScore 0 ⟨8, 10, "medium", "high", 50, 0⟩ ≤
      sessionScore 0 ⟨8, 10, "medium", "high", 0, 0⟩ :=
  sessionScore_antitone_guess 0
    ⟨8, 10, "medium", "high", 0, 0⟩ 0 50
    (by norm_num) (by norm_num) le_rfl (by norm_num) (by norm_num)

/-- C2 counterexample: the static weight table sums to 92, not 88, and at
the claim's concrete input (one fresh Medicine mock session, 8/10,
medium/high, zero guessing) the overall score is 11.27, not ≈ 11.78. -/
theorem medicine_example_claim_false :
    ((subjectWeights.map Prod.snd).sum : ℚ) ≠ 88 ∧
    calculatePrepScoreWithMocks 0 (medData 0) ≠ 11.78 := by
  constructor
  · rw [weightSum_eval]; norm_num
  · rw [medCalc_eval]; norm_num

/-- C2 (amended): for the single fresh Medicine mock session with
`correct=8/total=10`, medium difficulty, high confidence, zero guessing,
the session score is 1.152, the Medicine blended score is
`0*0.4 + 1.152*0.6 = 0.6912`, the sum of the 17 subject weights is 92
(not 88), and `calculatePrepScoreWithMocks` returns
`round2((0.6912*15)/92*100) = 11.27`. -/
theorem medicine_example_values (now : ℝ) :
    sessionScore now (medSession now) = 1.152 ∧
    subjectBlendedScore now [] [medSession now] = 0.6912 ∧
    ((subjectWeights.map Prod.snd).sum : ℚ) = 92 ∧
    calculatePrepScoreWithMocks now (medData now) = round2 (0.6912 * 15 / 92 * 100) ∧
    calculatePrepScoreWithMocks now (medData now) = 11.27 := by
  have hround : round ((25920 : ℝ) / 23) = 1127 := by
    rw [round_eq]; exact Int.floor_eq_iff.mpr (by norm_num)
  refine ⟨medSession_score now, ?_, weightSum_eval, ?_, medCalc_eval now⟩
  · simp [subjectBlendedScore, averageSessionScore, medSession,
      sessionScore_at_now, getMultiplier]
    norm_num
  · rw [medCalc_eval, round2]
    norm_num
    rw [hround]
    norm_num

/-- C3 counterexample: both sessions score non-negatively, yet deleting
the zero-scoring practice session raises the subject's blended score
(from 0.2 to 0.4) — deletion of a non-negative-scoring record can
increase the blended score. -/
theorem deletion_increases_blended :
    0 ≤ sessionScore 0 zeroSession ∧ 0 ≤ sessionScore 0 fullSession ∧
    subjectBlendedScore 0 [zeroSession, fullSession] [] <
      subjectBlendedScore 0 [fullSession] [] := by
  refine ⟨?_, ?_, ?_⟩
  · simp [zeroSession, sessionScore_at_now]
  · simp [fullSession, sessionScore_at_now, getMultiplier]
    norm_num
  · simp [subjectBlendedScore, averageSessionScore, zeroSession, fullSession,
      sessionScore_at_now, getMultiplier]
    norm_num

/-- C3 (amended): deleting a session whose score is at least the mean of
its list (e.g. a best-scoring session) never increases the subject's
blended score, for buckets whose session scores are all non-negative;
this holds for deletion from the practice list (first conjunct) and from
the mock list (second conjunct). -/
theorem blended_delete_nonincrease (now : ℝ) (l1 l2 m : List Session) (s : Session)
    (hnn : ∀ x ∈ l1 ++ s :: l2, 0 ≤ sessionScore now x)
    (hs : averageSessionScore now (l1 ++ s :: l2) ≤ sessionScore now s) :
    subjectBlendedScore now (l1 ++ l2) m ≤
      subjectBlendedScore now (l1 ++ s :: l2) m ∧
    subjectBlendedScore now m (l1 ++ l2) ≤
      subjectBlendedScore now m (l1 ++ s :: l2) := by
  have hsnn : 0 ≤ sessionScore now s := hnn s (by simp)
  have key := averageSessionScore_remove_le now l1 l2 s hsnn hs
  unfold subjectBlendedScore
  constructor
  · linarith
  · linarith

/-- Witness for C3 (amended) deleting the single session of a bucket. -/
theorem blended_delete_nonincrease_witness :
    subjectBlendedScore 0 ([] ++ []) [] ≤
      subjectBlendedScore 0 ([] ++ fullSession :: []) [] ∧
    subjectBlendedScore 0 [] ([] ++ []) ≤
      subjectBlendedScore 0 [] ([] ++ fullSession :: []) :=
  blended_delete_nonincrease 0 [] [] [] fullSession
    (by
      intro x hx
      simp only [List.nil_append, List.mem_singleton] at hx
      subst hx
      simp [fullSession, sessionScore_at_now, getMultiplier]
      norm_num)
    (by simp [averageSessionScore])

/-- C8: on any list of users with non-negative scores, the stable sort
with the leaderboard comparator produces a reordering of the input that
is sorted by score descending, places every zero-score user after every
positive-score user, and keeps the zero-score users in their original
relative order. -/
theorem leaderboard_sort_spec (l : List ProfileWithScore)
    (hnn : ∀ u ∈ l, 0 ≤ u.score) :
    (sortLeaderboard l).Perm l ∧
    (sortLeaderboard l).Pairwise
      (fun a b => b.score ≤ a.score ∧ (a.score = 0 → b.score = 0)) ∧
    (sortLeaderboard l).filter (fun u => decide (u.score = 0)) =
      l.filter (fun u => decide (u.score = 0)) := by
  unfold sortLeaderboard
  refine ⟨List.mergeSort_perm l lbLE, ?_, ?_⟩
  · have hp := List.sorted_mergeSort lbLE_trans lbLE_total l
    refine List.Pairwise.imp_of_mem ?_ hp
    intro a b ha hb hr
    have ha' := hnn a (List.mem_mergeSort.mp ha)
    rcases (lbLE_eq_true_iff a b).mp hr with hb0 | ⟨ha0, hba⟩
    · exact ⟨by rw [hb0]; exact ha', fun _ => hb0⟩
    · exact ⟨hba, fun h0 => absurd h0 ha0⟩
  · have hall : ∀ u ∈ l.filter (fun u => decide (u.score = 0)), u.score = 0 := by
      intro u hu
      simpa using (List.mem_filter.mp hu).2
    have hpw : (l.filter (fun u => decide (u.score = 0))).Pairwise
        (fun a b => lbLE a b) := by
      apply List.pairwise_of_forall_mem_list
      intro a ha b hb
      exact (lbLE_eq_true_iff a b).mpr (Or.inl (hall b hb))
    have hsub : List.Sublist (l.filter (fun u => decide (u.score = 0)))
        (l.mergeSort lbLE) :=
      List.sublist_mergeSort lbLE_trans lbLE_total hpw (List.filter_sublist l)
    have hself : (l.filter (fun u => decide (u.score = 0))).filter
        (fun u => decide (u.score = 0)) = l.filter (fun u => decide (u.score = 0)) :=
 by
      rw [List.filter_eq_self]
      intro a ha
      exact (List.mem_filter.mp ha).2
    have hsub2 : List.Sublist (l.filter (fun u => decide (u.score = 0)))
        ((l.mergeSort lbLE).filter (fun u => decide (u.score = 0))) := by
      rw [← hself]
      exact hsub.filter _
    have hperm : ((l.mergeSort lbLE).filter (fun u => decide (u.score = 0))).Perm
        (l.filter (fun u => decide (u.score = 0))) :=
      (List.mergeSort_perm l lbLE).filter _
    exact (hsub2.eq_of_length hperm.length_eq.symm).symm

/-- Witness for C8 at a concrete user list. -/
theorem leaderboard_sort_spec_witness :
    (sortLeaderboard lbUsers).Perm lbUsers ∧
    (sortLeaderboard lbUsers).Pairwise
      (fun a b => b.score ≤ a.score ∧ (a.score = 0 → b.score = 0)) ∧
    (sortLeaderboard lbUsers).filter (fun u => decide (u.score = 0)) =
      lbUsers.filter (fun u => decide (u.score = 0)) :=
  leaderboard_sort_spec lbUsers (by decide)

/-- C1: `calculatePrepScoreWithMocks` returns `round2` of the sum over the
fixed 17 subjects of `weight * (0.4 * practice_mean + 0.6 * mock_mean)`,
divided by the sum of all 17 weights, times 100, with an absent subject
contributing a blended score of 0 — i.e. it coincides with the spec-side
`specPrepScore` on every input. -/
theorem calculatePrepScoreWithMocks_eq_spec (now : ℝ)
    (data : String → Option SubjectData) :
    calculatePrepScoreWithMocks now data = specPrepScore now data := by
  unfold calculatePrepScoreWithMocks specPrepScore
  rw [List.map_congr_left (fun sw _ => subjectTerm_eq_specBlended now data sw)]

/-- C4: `getRecentnessFactor` is `exp (-(age_days / 30))` with
`age_days = (now - t) / 86400000` milliseconds-per-day; it is
non-increasing as the age grows and is always strictly positive (hence
never exactly zero). -/
theorem getRecentnessFactor_spec (now t1 t2 t : ℝ) (h : now - t2 ≤ now - t1) :
    getRecentnessFactor now t1 ≤ getRecentnessFactor now t2 ∧
    0 < getRecentnessFactor now t ∧
    getRecentnessFactor now t = Real.exp (-((now - t) / 86400000) / 30) := by
  refine ⟨?_, Real.exp_pos _, by norm_num [getRecentnessFactor]⟩
  unfold getRecentnessFactor
  exact Real.exp_le_exp.2 (by linarith)

/-- Witness for C4 at concrete timestamps. -/
theorem getRecentnessFactor_spec_witness :
    getRecentnessFactor 0 (-86400000) ≤ getRecentnessFactor 0 0 ∧
    0 < getRecentnessFactor 0 0 ∧
    getRecentnessFactor 0 0 = Real.exp (-((0 - 0) / 86400000) / 30) :=
  getRecentnessFactor_spec 0 (-86400000) 0 0 (by norm_num)

/-- C5: `getMultiplier` returns the table value on every recognized input
and the neutral multiplier `1.0` on every unrecognized string. -/
theorem getMultiplier_table_and_default :
    getMultiplier .difficulty "easy" = 1 ∧
    getMultiplier .difficulty "medium" = 1.2 ∧
    getMultiplier .difficulty "hard" = 1.4 ∧
    getMultiplier .confidence "low" = 0.8 ∧
    getMultiplier .confidence "medium" = 1 ∧
    getMultiplier .confidence "high" = 1.2 ∧
    (∀ v : String, v ≠ "easy" → v ≠ "medium" → v ≠ "hard" →
      getMultiplier .difficulty v = 1) ∧
    (∀ v : String, v ≠ "low" → v ≠ "medium" → v ≠ "high" →
      getMultiplier .confidence v = 1) := by
  refine ⟨by simp [getMultiplier] <;> norm_num, by simp [getMultiplier] <;> norm_num,
          by simp [getMultiplier] <;> norm_num, by simp [getMultiplier] <;> norm_num,
          by simp [getMultiplier] <;> norm_num, by simp [getMultiplier] <;> norm_num,
          ?_, ?_⟩ <;>
    · intro v h1 h2 h3
      simp only [getMultiplier, if_neg h1, if_neg h2, if_neg h3]
      norm_num

/-- Witness for C5 at a concrete unrecognized string. -/
theorem getMultiplier_table_and_default_witness :
    getMultiplier .difficulty "expert" = 1 ∧ getMultiplier .confidence "expert" = 1 :=
  ⟨getMultiplier_table_and_default.2.2.2.2.2.2.1 "expert"
      (by decide) (by decide) (by decide),
   getMultiplier_table_and_default.2.2.2.2.2.2.2 "expert"
      (by decide) (by decide) (by decide)⟩

/-- C7: the average of an empty session list is exactly 0, a subject with
two empty lists has blended score exactly 0, and a subject whose bucket
holds two empty lists contributes nothing: dropping its key from the map
leaves `calculatePrepScoreWithMocks` unchanged. -/
theorem averageSessionScore_nil_spec (now : ℝ) :
    averageSessionScore now [] = 0 ∧
    subjectBlendedScore now [] [] = 0 ∧
    (∀ (data : String → Option SubjectData) (s : String),
      data s = some ⟨[], []⟩ →
      calculatePrepScoreWithMocks now data =
        calculatePrepScoreWithMocks now (Function.update data s none)) := by
  refine ⟨by simp [averageSessionScore],
          by simp [subjectBlendedScore, averageSessionScore], ?_⟩
  intro data s h
  refine prepScore_congr now data _ (fun sw _ => ?_)
  rcases eq_or_ne sw.1 s with he | hne
  · rw [he, h, Function.update_same]
    rfl
  · rw [Function.update_noteq hne]

/-- Witness for C7 at a concrete map holding one empty bucket. -/
theorem averageSessionScore_nil_spec_witness :
    averageSessionScore 0 [] = 0 ∧
    subjectBlendedScore 0 [] [] = 0 ∧
    calculatePrepScoreWithMocks 0
        (fun t => if t = "Medicine" then some ⟨[], []⟩ else none) =
      calculatePrepScoreWithMocks 0
        (Function.update (fun t => if t = "Medicine" then some ⟨[], []⟩ else none)
          "Medicine" none) :=
  ⟨(averageSessionScore_nil_spec 0).1, (averageSessionScore_nil_spec 0).2.1,
   (averageSessionScore_nil_spec 0).2.2 _ "Medicine" (by simp)⟩

/-- C9: a timestamp strictly in the future of the call time yields a
recentness factor strictly greater than 1 — the decay multiplier is not
clamped. -/
theorem getRecentnessFactor_future_gt_one (now t : ℝ) (h : now < t) :
    1 < getRecentnessFactor now t := by
  unfold getRecentnessFactor
  rw [Real.one_lt_exp_iff]
  have h2 : 0 < t - now := by linarith
  have : -((now - t) / (1000 * 3600 * 24)) / 30 = (t - now) / 2592000000 := by ring
  rw [this]
  exact div_pos h2 (by norm_num)

/-- Witness for C9 one day in the future. -/
theorem getRecentnessFactor_future_gt_one_witness :
    1 < getRecentnessFactor 0 86400000 :=
  getRecentnessFactor_future_gt_one 0 86400000 (by norm_num)

/-- C10: the overall score only reads the 17 keys of the static weight
table: any two per-subject maps that agree on those 17 subjects (however
they differ on unknown keys) give the same `calculatePrepScoreWithMocks`
result. -/
theorem unknown_subjects_ignored (now : ℝ)
    (data data' : String → Option SubjectData)
    (h : ∀ sw ∈ subjectWeights, data sw.1 = data' sw.1) :
    calculatePrepScoreWithMocks now data = calculatePrepScoreWithMocks now data' :=
  prepScore_congr now data data' (fun sw hsw => by rw [h sw hsw])

/-- Witness for C10: adding a bucket under the unknown key `"Astrology"`
leaves the result unchanged. -/
theorem unknown_subjects_ignored_witness :
    calculatePrepScoreWithMocks 0 (fun _ => none) =
      calculatePrepScoreWithMocks 0
        (fun t => if t = "Astrology"
          then some ⟨[⟨1, 1, "easy", "low", 0, 0⟩], []⟩ else none) :=
  unknown_subjects_ignored 0 _ _ (by intro sw hsw; fin_cases hsw <;> rfl)

end MedPrep
